import Mathlib

/-!
Verification of the nl2sql assistant core (bizops package): a shallow
embedding of the session store, intention analyzer, context enrichment
engine, planner, and assistant orchestrator, with theorems settling the
spec claims about them.

Conventions of the embedding:
- Python dicts with a fixed key set are records; keys that some code paths
  read with `.get`/`in` but that construction sites may omit are `Option`
  fields (`none` models the absent key).
- `uuid7()`/`uuid4()` identifier generation is modelled as a fresh-supply
  counter threaded through the operations; identifiers are `Nat`.
- Raised exceptions are `Except PyErr`; `try/except` blocks are matches on
  the `Except` value.
- Wall-clock timestamps (`time.strftime`, `datetime.now`) are opaque
  parameters.
-/

namespace Bizops

/-- Python runtime errors surfaced by the embedded code paths. -/
inductive PyErr where
  | keyError (key : String)
  | typeError (msg : String)
  | attributeError (msg : String)
  | valueError (msg : String)
  | exception (msg : String)
deriving DecidableEq, Repr

/-- Message text of an error, as interpolated by `str(e)` at re-raise sites. -/
def PyErr.msg : PyErr → String
  | .keyError k => k
  | .typeError m => m
  | .attributeError m => m
  | .valueError m => m
  | .exception m => m

/-- Python dict assignment `d[k] = v`: overwrite in place if the key exists,
append at the end otherwise (insertion order preserved). -/
def dictInsert {κ α : Type} [DecidableEq κ] (k : κ) (v : α) :
    List (κ × α) → List (κ × α)
  | [] => [(k, v)]
  | (k1, v1) :: rest =>
      if k1 = k then (k, v) :: rest else (k1, v1) :: dictInsert k v rest

/-- Python `d.get(key, [])` for a dict of string-list values. -/
def pyGetL (d : List (String × List String)) (k : String) : List String :=
  (d.lookup k).getD []

/-- Entity map of an analysis: entity-type to list of names
(`entities` dict in the source). -/
abbrev Entities := List (String × List String)

/-- Opaque session-context payload (string key/value pairs). -/
abbrev Ctx := List (String × String)

/-- Conversation-state dict (read via `.get("previous_intents", [])`). -/
abbrev ConvState := List (String × List String)

section Planner
/-! Embedding of `bizops/services/agents/planner_agent.py`. -/

/-- Task type enum (`TaskType`); `name` is Python's `Enum.name`. -/
inductive TaskType where
  | SQL_GENERATION
  | DATA_QUERY
  | SCHEMA_LOOKUP
  | CLARIFICATION
  | REFINEMENT
  | EXPLANATION
  | VALIDATION
deriving DecidableEq, Repr

/-- Python `TaskType.<member>.name`. -/
def TaskType.name : TaskType → String
  | .SQL_GENERATION => "SQL_GENERATION"
  | .DATA_QUERY => "DATA_QUERY"
  | .SCHEMA_LOOKUP => "SCHEMA_LOOKUP"
  | .CLARIFICATION => "CLARIFICATION"
  | .REFINEMENT => "REFINEMENT"
  | .EXPLANATION => "EXPLANATION"
  | .VALIDATION => "VALIDATION"

/-- Task status enum (`TaskStatus`); `val` is Python's `Enum.value`. -/
inductive TaskStatus where
  | pending
  | in_progress
  | completed
  | failed
deriving DecidableEq, Repr

/-- Python `TaskStatus.<member>.value`. -/
def TaskStatus.val : TaskStatus → String
  | .pending => "pending"
  | .in_progress => "in_progress"
  | .completed => "completed"
  | .failed => "failed"

/-- Parameter payloads written at the task construction sites of
`_plan_completion_tasks` and `_plan_chat_tasks`. -/
inductive TaskParams where
  | schemaLookup (tables fields : List String)
  | sqlGeneration (entities : Entities) (context : Ctx)
  | emptyParams
  | clarification (entities : Entities) (context : Ctx) (conversationState : ConvState)
  | refinement (entities : Entities) (context : Ctx) (conversationState : ConvState)
      (previousIntents : List String)
deriving DecidableEq, Repr

/-- Task dict. The construction sites in `_plan_completion_tasks` and
`_plan_chat_tasks` write exactly the keys `task_id`, `type`, `priority`,
`dependencies`, `parameters`, `status`; `result` is written only by
`update_task_status` and `planId` records the `plan_id` key, which no
construction site ever writes (hence it is `none` for every stored task). -/
structure Task where
  taskId : Nat
  type : String
  priority : Nat
  dependencies : List Nat
  parameters : TaskParams
  status : String
  result : Option Ctx := none
  planId : Option Nat := none
deriving DecidableEq, Repr

/-- Plan dict built by `create_plan` (metadata is flattened into
`timestamp`/`totalTasks`). -/
structure Plan where
  planId : Nat
  intentionId : Nat
  type : String
  tasks : List Task
  status : String
  timestamp : String
  totalTasks : Nat
deriving DecidableEq, Repr

/-- PlannerAgent state: the `self.plans` and `self.tasks` dicts. -/
structure PlannerState where
  plans : List (Nat × Plan) := []
  tasks : List (Nat × Task) := []
deriving DecidableEq, Repr

/-- Truthiness of `entities.get("tables") or entities.get("fields")` in
`_plan_completion_tasks` (an absent key yields `None`, falsy; an empty
list is falsy; a non-empty list is truthy). -/
def tablesOrFields (entities : Entities) : Bool :=
  !(pyGetL entities "tables").isEmpty || !(pyGetL entities "fields").isEmpty

/-- The source's `_plan_completion_tasks`, threading the uuid7 supply
counter; returns the task list and the advanced counter. -/
def plan_completion_tasks (primaryIntent : String) (_subIntents : List String)
    (entities : Entities) (context : Ctx) (ctr : Nat) : List Task × Nat :=
  if primaryIntent == "sql_generation" then
    let head :=
      if tablesOrFields entities then
        ([{ taskId := ctr
            type := TaskType.SCHEMA_LOOKUP.name
            priority := 1
            dependencies := []
            parameters := .schemaLookup (pyGetL entities "tables") (pyGetL entities "fields")
            status := TaskStatus.pending.val : Task }], ctr + 1)
      else ([], ctr)
    let tasks := head.1
    let ctr := head.2
    let sqlTask : Task :=
      { taskId := ctr
        type := TaskType.SQL_GENERATION.name
        priority := 2
        dependencies := tasks.map (·.taskId)
        parameters := .sqlGeneration entities context
        status := TaskStatus.pending.val }
    let tasks := tasks ++ [sqlTask]
    let valTask : Task :=
      { taskId := ctr + 1
        type := TaskType.VALIDATION.name
        priority := 3
        dependencies := [sqlTask.taskId]
        parameters := .emptyParams
        status := TaskStatus.pending.val }
    (tasks ++ [valTask], ctr + 2)
  else ([], ctr)

/-- The source's `_plan_chat_tasks`, threading the uuid7 supply counter. -/
def plan_chat_tasks (primaryIntent : String) (_subIntents : List String)
    (entities : Entities) (context : Ctx) (conversationState : ConvState)
    (ctr : Nat) : List Task × Nat :=
  if primaryIntent == "clarification" then
    ([{ taskId := ctr
        type := TaskType.CLARIFICATION.name
        priority := 1
        dependencies := []
        parameters := .clarification entities context conversationState
        status := TaskStatus.pending.val : Task }], ctr + 1)
  else if primaryIntent == "refinement" then
    let refTask : Task :=
      { taskId := ctr
        type := TaskType.REFINEMENT.name
        priority := 1
        dependencies := []
        parameters := .refinement entities context conversationState
          (pyGetL conversationState "previous_intents")
        status := TaskStatus.pending.val }
    let valTask : Task :=
      { taskId := ctr + 1
        type := TaskType.VALIDATION.name
        priority := 2
        dependencies := [refTask.taskId]
        parameters := .emptyParams
        status := TaskStatus.pending.val }
    ([refTask, valTask], ctr + 2)
  else ([], ctr)

end Planner

section IntentionModel
/-! Intention dicts, as constructed by
`bizops/services/agents/intention_agent.py` and consumed by the planner and
context agent. -/

/-- Source dict of an intention: origin kind, content, and (for chat and
derived intentions) the session id. -/
structure IntentSource where
  type : String
  content : String
  sessionId : Option String := none
deriving DecidableEq, Repr

/-- Analysis dict of an intention. `primaryIntent` is `Option` because
`_build_search_query` tests key presence and `create_plan` subscripts it
(KeyError when absent); `constraints`, `databaseName`, `conversationState`
are read via `.get` and never written by the analyzer stubs. -/
structure Analysis where
  primaryIntent : Option String
  subIntents : List String := []
  entities : Entities := []
  isExecutable : Bool
  needsClarification : Bool := false
  missingParameters : List String := []
  constraints : List String := []
  databaseName : Option String := none
  conversationState : ConvState := []
deriving DecidableEq, Repr

/-- Relationships dict of an intention. -/
structure Relationships where
  parentIntention : Option Nat := none
  childIntentions : List Nat := []
  relatedIntentions : List Nat := []
deriving DecidableEq, Repr

/-- Metadata dict of an intention. -/
structure IntentMetadata where
  intentionId : Nat
  timestamp : String
  version : Nat := 1
  sessionId : Option String := none
deriving DecidableEq, Repr

/-- Intention dict. `context` is the top-level `context` key, read by
`create_plan` via `.get("context", {})` and never written by the analyzer
(hence optional). -/
structure Intention where
  id : Nat
  type : String
  source : IntentSource
  analysis : Analysis
  status : String
  relationships : Relationships
  metadata : IntentMetadata
  context : Option Ctx := none
deriving DecidableEq, Repr

end IntentionModel

section PlannerOps
/-! The planner's stateful operations. -/

/-- The source's `create_plan`: dispatch on intention type, build the task
list, store plan and tasks, return the plan. The uuid7 supply `ctr` yields
first the plan id, then the task ids. A missing `primary_intent` key is the
subscript KeyError re-raised by the surrounding `except` clause. -/
def create_plan (now : String) (intention : Intention) (ctr : Nat)
    (st : PlannerState) : Except PyErr (Plan × PlannerState × Nat) :=
  let planId := ctr
  let ctr := ctr + 1
  match intention.analysis.primaryIntent with
  | none => .error (.exception ("Error creating plan: " ++ (PyErr.keyError "primary_intent").msg))
  | some primaryIntent =>
    let dispatch :=
      if intention.type == "completion" then
        plan_completion_tasks primaryIntent intention.analysis.subIntents
          intention.analysis.entities (intention.context.getD []) ctr
      else if intention.type == "chat" then
        plan_chat_tasks primaryIntent intention.analysis.subIntents
          intention.analysis.entities (intention.context.getD [])
          intention.analysis.conversationState ctr
      else ([], ctr)
    let tasks := dispatch.1
    let ctr := dispatch.2
    let plan : Plan :=
      { planId := planId
        intentionId := intention.metadata.intentionId
        type := intention.type
        tasks := tasks
        status := TaskStatus.pending.val
        timestamp := now
        totalTasks := tasks.length }
    let st : PlannerState :=
      { plans := dictInsert planId plan st.plans
        tasks := tasks.foldl (fun m t => dictInsert t.taskId t m) st.tasks }
    .ok (plan, st, ctr)

/-- The generator `all(self.tasks[t["task_id"]]["status"] == COMPLETED for t
in plan["tasks"])`: short-circuits on the first non-completed task, raises
KeyError when a listed task id is absent from the index. -/
def allTasksCompleted (tasksIdx : List (Nat × Task)) : List Task → Except PyErr Bool
  | [] => .ok true
  | t :: rest =>
    match tasksIdx.lookup t.taskId with
    | none => .error (.keyError (toString t.taskId))
    | some tt =>
      if tt.status == TaskStatus.completed.val then allTasksCompleted tasksIdx rest
      else .ok false

/-- The source's `update_task_status`: look up the task, set its status,
store the result when truthy, then read `task["plan_id"]` to re-evaluate the
owning plan — a key no construction site writes, so the subscript raises
KeyError for every task created by `create_plan`. -/
def update_task_status (taskId : Nat) (status : TaskStatus) (result : Option Ctx)
    (st : PlannerState) : Except PyErr PlannerState :=
  match st.tasks.lookup taskId with
  | none => .error (.exception "Invalid task ID")
  | some task =>
    let task :=
      { task with
        status := status.val
        result := match result with
          | some r => if r.isEmpty then task.result else some r
          | none => task.result }
    let st := { st with tasks := dictInsert taskId task st.tasks }
    match task.planId with
    | none => .error (.keyError "plan_id")
    | some pid =>
      match st.plans.lookup pid with
      | none => .error (.keyError (toString pid))
      | some plan => do
        let allDone ← allTasksCompleted st.tasks plan.tasks
        if allDone then
          .ok { st with plans := dictInsert pid { plan with status := TaskStatus.completed.val } st.plans }
        else
          .ok st

end PlannerOps

section PlannerThms

/-- Observable signature of a task: id, type, priority, dependency list. -/
def taskSig (t : Task) : Nat × String × Nat × List Nat :=
  (t.taskId, t.type, t.priority, t.dependencies)

/-- The schema-lookup guard is truthy exactly when the entities reference
tables or fields. -/
theorem tablesOrFields_iff (e : Entities) :
    tablesOrFields e = true ↔
      pyGetL e "tables" ≠ [] ∨ pyGetL e "fields" ≠ [] := by
  simp [tablesOrFields, List.isEmpty_iff]

/-- No task's dependency list mentions a task id that does not belong to a
strictly earlier task of the same list. -/
def noForwardRefs (ts : List Task) : Prop :=
  ∀ (j : Nat) (hj : j < ts.length) (d : Nat),
    d ∈ (ts.get ⟨j, hj⟩).dependencies →
      ∃ (k : Nat) (hk : k < ts.length), k < j ∧ (ts.get ⟨k, hk⟩).taskId = d

theorem noForwardRefs_nil : noForwardRefs [] := by
  intro j hj
  simp at hj

theorem noForwardRefs_single (t : Task) (h : t.dependencies = []) :
    noForwardRefs [t] := by
  intro j hj d hd
  match j, hj with
  | 0, _ =>
    rw [show ([t].get ⟨0, by omega⟩) = t from rfl, h] at hd
    cases hd
  | j + 1, hj => exact absurd hj (by simp)

theorem noForwardRefs_pair (a b : Task) (ha : a.dependencies = [])
    (hb : b.dependencies = [a.taskId]) : noForwardRefs [a, b] := by
  intro j hj d hd
  match j, hj with
  | 0, _ =>
    rw [show ([a, b].get ⟨0, by omega⟩) = a from rfl, ha] at hd
    cases hd
  | 1, _ =>
    rw [show ([a, b].get ⟨1, by omega⟩) = b from rfl, hb] at hd
    refine ⟨0, by omega, by omega, ?_⟩
    rw [show ([a, b].get ⟨0, by omega⟩) = a from rfl]
    have hd1 : d = a.taskId := by simpa using hd
    exact hd1.symm
  | j + 2, hj => exact absurd hj (by simp)

theorem noForwardRefs_triple (a b c : Task) (ha : a.dependencies = [])
    (hb : b.dependencies = [a.taskId]) (hc : c.dependencies = [b.taskId]) :
    noForwardRefs [a, b, c] := by
  intro j hj d hd
  match j, hj with
  | 0, _ =>
    rw [show ([a, b, c].get ⟨0, by omega⟩) = a from rfl, ha] at hd
    cases hd
  | 1, _ =>
    rw [show ([a, b, c].get ⟨1, by omega⟩) = b from rfl, hb] at hd
    refine ⟨0, by omega, by omega, ?_⟩
    rw [show ([a, b, c].get ⟨0, by omega⟩) = a from rfl]
    have hd1 : d = a.taskId := by simpa using hd
    exact hd1.symm
  | 2, _ =>
    rw [show ([a, b, c].get ⟨2, by omega⟩) = c from rfl, hc] at hd
    refine ⟨1, by omega, by omega, ?_⟩
    rw [show ([a, b, c].get ⟨1, by omega⟩) = b from rfl]
    have hd1 : d = b.taskId := by simpa using hd
    exact hd1.symm
  | j + 3, hj => exact absurd hj (by simp)

theorem plan_completion_tasks_noForwardRefs (pi : String) (si : List String)
    (e : Entities) (c : Ctx) (ctr : Nat) :
    noForwardRefs (plan_completion_tasks pi si e c ctr).1 := by
  unfold plan_completion_tasks
  cases hpi : (pi == "sql_generation") with
  | false => simpa [hpi] using noForwardRefs_nil
  | true =>
    cases hto : tablesOrFields e with
    | false =>
      simp only [hpi, hto, if_true, if_false, Bool.false_eq_true]
      exact noForwardRefs_pair _ _ rfl rfl
    | true =>
      simp only [hpi, hto, if_true]
      exact noForwardRefs_triple _ _ _ rfl rfl rfl

theorem plan_chat_tasks_noForwardRefs (pi : String) (si : List String)
    (e : Entities) (c : Ctx) (cs : ConvState) (ctr : Nat) :
    noForwardRefs (plan_chat_tasks pi si e c cs ctr).1 := by
  unfold plan_chat_tasks
  cases hcl : (pi == "clarification") with
  | true =>
    simp only [hcl, if_true]
    exact noForwardRefs_single _ rfl
  | false =>
    cases hre : (pi == "refinement") with
    | true =>
      simp only [hcl, hre, if_true, Bool.false_eq_true, if_false]
      exact noForwardRefs_pair _ _ rfl rfl
    | false =>
      simpa [hcl, hre] using noForwardRefs_nil

/-- Claim C8: every plan returned by `create_plan` (completion or chat) has
its tasks in dependency order — each dependency references the id of a task
strictly earlier in the same list, so there are no forward references and no
cycles. -/
theorem create_plan_dependency_order (now : String) (i : Intention) (ctr : Nat)
    (st : PlannerState) (plan : Plan) (st2 : PlannerState) (ctr2 : Nat)
    (h : create_plan now i ctr st = .ok (plan, st2, ctr2)) :
    noForwardRefs plan.tasks := by
  unfold create_plan at h
  cases hpi : i.analysis.primaryIntent with
  | none => rw [hpi] at h; cases h
  | some pi =>
    rw [hpi] at h
    simp only [Except.ok.injEq, Prod.mk.injEq] at h
    obtain ⟨hplan, -, -⟩ := h
    rw [← hplan]
    cases hc : (i.type == "completion") with
    | true =>
      simp only [hc, if_true]
      exact plan_completion_tasks_noForwardRefs _ _ _ _ _
    | false =>
      cases hch : (i.type == "chat") with
      | true =>
        simp only [hc, hch, if_true, Bool.false_eq_true, if_false]
        exact plan_chat_tasks_noForwardRefs _ _ _ _ _ _
      | false =>
        simp only [hc, hch, Bool.false_eq_true, if_false]
        exact noForwardRefs_nil

/-- Sample chat refinement intention used to instantiate C8's theorem. -/
def sampleChatIntention : Intention :=
  { id := 50
    type := "chat"
    source := { type := "message", content := "refine it", sessionId := some "s-1" }
    analysis :=
      { primaryIntent := some "refinement"
        isExecutable := true }
    status := "pending"
    relationships := {}
    metadata := { intentionId := 50, timestamp := "t0" } }

instance : Inhabited TaskParams := ⟨.emptyParams⟩

instance : Inhabited Task :=
  ⟨{ taskId := 0, type := "", priority := 0, dependencies := [],
     parameters := .emptyParams, status := "" }⟩

instance : Inhabited Plan :=
  ⟨{ planId := 0, intentionId := 0, type := "", tasks := [], status := "",
     timestamp := "", totalTasks := 0 }⟩

/-- Plan component of a successful `create_plan` run. -/
def runPlan (r : Except PyErr (Plan × PlannerState × Nat)) : Plan :=
  match r with
  | .ok (p, _, _) => p
  | .error _ => default

/-- State component of a successful `create_plan` run. -/
def runState (r : Except PyErr (Plan × PlannerState × Nat)) : PlannerState :=
  match r with
  | .ok (_, s, _) => s
  | .error _ => ⟨[], []⟩

/-- Counter component of a successful `create_plan` run. -/
def runCtr (r : Except PyErr (Plan × PlannerState × Nat)) : Nat :=
  match r with
  | .ok (_, _, c) => c
  | .error _ => 0

/-- Witness for C8 at a concrete chat refinement intention. -/
theorem create_plan_dependency_order_witness :
    noForwardRefs (runPlan (create_plan "t0" sampleChatIntention 0 ⟨[], []⟩)).tasks := by
  have h : create_plan "t0" sampleChatIntention 0 ⟨[], []⟩ =
      .ok (runPlan (create_plan "t0" sampleChatIntention 0 ⟨[], []⟩),
           runState (create_plan "t0" sampleChatIntention 0 ⟨[], []⟩),
           runCtr (create_plan "t0" sampleChatIntention 0 ⟨[], []⟩)) := by rfl
  exact create_plan_dependency_order "t0" sampleChatIntention 0 ⟨[], []⟩ _ _ _ h

/-- Claim C1: on a completion intention whose primary intent is
`sql_generation`, the plan's task list is a `SCHEMA_LOOKUP` task (priority 1,
no dependencies) emitted iff the entities reference tables or fields, then a
`SQL_GENERATION` task (priority 2) depending exactly on the schema-lookup
task when one was emitted and on nothing otherwise, then a trailing
`VALIDATION` task (priority 3) depending exactly on the sql-generation
task. -/
theorem create_plan_completion_sql_shape (now : String) (i : Intention)
    (ctr : Nat) (st : PlannerState)
    (htype : i.type = "completion")
    (hpi : i.analysis.primaryIntent = some "sql_generation") :
    ∃ plan st2 ctr2,
      create_plan now i ctr st = .ok (plan, st2, ctr2) ∧
        (if tablesOrFields i.analysis.entities then
          ∃ a b c, plan.tasks.map taskSig =
            [(a, "SCHEMA_LOOKUP", 1, []),
             (b, "SQL_GENERATION", 2, [a]),
             (c, "VALIDATION", 3, [b])]
        else
          ∃ b c, plan.tasks.map taskSig =
            [(b, "SQL_GENERATION", 2, []),
             (c, "VALIDATION", 3, [b])]) := by
  unfold create_plan
  rw [hpi, htype]
  refine ⟨_, _, _, rfl, ?_⟩
  unfold plan_completion_tasks
  cases hto : tablesOrFields i.analysis.entities with
  | true =>
    simp only [hto, if_true]
    exact ⟨ctr + 1, ctr + 2, ctr + 3, by simp [taskSig, TaskType.name, TaskStatus.val]⟩
  | false =>
    simp only [hto, Bool.false_eq_true, if_false, if_true]
    exact ⟨ctr + 1, ctr + 2, by simp [taskSig, TaskType.name, TaskStatus.val]⟩

/-- Sample completion intention with table entities, instantiating C1. -/
def sampleCompletionIntention : Intention :=
  { id := 60
    type := "completion"
    source := { type := "prompt", content := "find top 5 customers" }
    analysis :=
      { primaryIntent := some "sql_generation"
        entities := [("tables", ["customers"])]
        isExecutable := true }
    status := "pending"
    relationships := {}
    metadata := { intentionId := 60, timestamp := "t0" } }

/-- Witness for C1 at a concrete completion intention referencing a table. -/
theorem create_plan_completion_sql_shape_witness :
    (if tablesOrFields sampleCompletionIntention.analysis.entities then
      ∃ a b c, (runPlan (create_plan "t0" sampleCompletionIntention 0 ⟨[], []⟩)).tasks.map taskSig =
        [(a, "SCHEMA_LOOKUP", 1, []),
         (b, "SQL_GENERATION", 2, [a]),
         (c, "VALIDATION", 3, [b])]
    else
      ∃ b c, (runPlan (create_plan "t0" sampleCompletionIntention 0 ⟨[], []⟩)).tasks.map taskSig =
        [(b, "SQL_GENERATION", 2, []),
         (c, "VALIDATION", 3, [b])]) := by
  obtain ⟨p, s, c, h, hshape⟩ :=
    create_plan_completion_sql_shape "t0" sampleCompletionIntention 0 ⟨[], []⟩ rfl rfl
  rw [show runPlan (create_plan "t0" sampleCompletionIntention 0 ⟨[], []⟩) = p by
    rw [h]; rfl]
  exact hshape

/-- Completion intention with `sql_generation` intent and no entities, used
to exhibit the `plan_id` KeyError of `update_task_status`. -/
def bugProbeIntention : Intention :=
  { id := 70
    type := "completion"
    source := { type := "prompt", content := "count rows" }
    analysis :=
      { primaryIntent := some "sql_generation"
        isExecutable := true }
    status := "pending"
    relationships := {}
    metadata := { intentionId := 70, timestamp := "t0" } }

/-- Completion intention whose primary intent matches no planner rule, so
its plan has an empty task list. -/
def emptyPlanIntention : Intention :=
  { id := 80
    type := "completion"
    source := { type := "prompt", content := "hello" }
    analysis :=
      { primaryIntent := some "data_exploration"
        isExecutable := true }
    status := "pending"
    relationships := {}
    metadata := { intentionId := 80, timestamp := "t0" } }

/-- Claim C2 fails on the code: `create_plan` stores every plan with status
`"pending"` — including plans with an empty task list, which the claim says
are completed once returned — and `update_task_status` raises
KeyError `"plan_id"` on every task `create_plan` created (the task dicts
never receive a `plan_id` key), so completing the last task never flips the
plan's status to completed. -/
theorem plan_completed_invariant_violated :
    (runPlan (create_plan "t0" bugProbeIntention 0 ⟨[], []⟩)).tasks.map taskSig =
        [(1, "SQL_GENERATION", 2, []), (2, "VALIDATION", 3, [1])] ∧
      (runPlan (create_plan "t0" bugProbeIntention 0 ⟨[], []⟩)).status = "pending" ∧
      update_task_status 1 TaskStatus.completed none
          (runState (create_plan "t0" bugProbeIntention 0 ⟨[], []⟩)) =
        .error (.keyError "plan_id") ∧
      update_task_status 2 TaskStatus.completed none
          (runState (create_plan "t0" bugProbeIntention 0 ⟨[], []⟩)) =
        .error (.keyError "plan_id") ∧
      (runPlan (create_plan "t0" emptyPlanIntention 0 ⟨[], []⟩)).tasks = [] ∧
      (runPlan (create_plan "t0" emptyPlanIntention 0 ⟨[], []⟩)).status = "pending" := by
  refine ⟨rfl, rfl, rfl, rfl, rfl, rfl⟩

end PlannerThms

section ContextAgent
/-! Embedding of `bizops/services/agents/context_agent.py`. The vector and
knowledge-graph collaborators are external (spec section 1), so each
retrieval sub-operation's outcome enters `enrich_context` as an
`Except PyErr` parameter carrying its `results` payload. -/

/-- The source's `_build_search_query`: intent section when the
`primary_intent` key is present, one section per entity-type with truthy
values, a constraints section when constraints are non-empty, joined by
single spaces. -/
def build_search_query (analysis : Analysis) : String :=
  let queryParts : List String :=
    (match analysis.primaryIntent with
      | some pi => ["Intent: " ++ pi]
      | none => []) ++
    (analysis.entities.filterMap fun p =>
      if p.2.isEmpty then none
      else some (p.1 ++ ": " ++ String.intercalate ", " p.2)) ++
    (if analysis.constraints.isEmpty then []
      else ["Constraints: " ++ String.intercalate ", " analysis.constraints])
  String.intercalate " " queryParts

/-- Spec-side restatement of the query-construction rule (spec section 4.3):
the sections, in order — intent, entity-types present, constraints — with
empty sections omitted entirely. Stated independently of
`build_search_query` for comparison. -/
def spec_query_sections (a : Analysis) : List String :=
  (a.primaryIntent.map (fun pi => "Intent: " ++ pi)).toList ++
  ((a.entities.filter fun p => !p.2.isEmpty).map fun p =>
    p.1 ++ ": " ++ String.intercalate ", " p.2) ++
  (if a.constraints = [] then []
    else ["Constraints: " ++ String.intercalate ", " a.constraints])

/-- Spec-side query string: the non-empty sections joined by spaces. -/
def spec_search_query (a : Analysis) : String :=
  String.intercalate " " (spec_query_sections a)

/-- Combined context returned by a fully successful `enrich_context`. -/
structure EnrichedContext where
  databaseMetadata : Ctx
  tableMetadata : Ctx
  queryExamples : Ctx
  schemaRelationships : Ctx
  taskContext : Ctx
  timestamp : String
  contextId : Nat
  intentionId : Nat
  databaseName : String
deriving DecidableEq, Repr

/-- The read of `database_name` at the top of `enrich_context`: the absent
key and the empty string are falsy and raise ValueError. -/
def databaseNameCheck (a : Analysis) : Except PyErr String :=
  match a.databaseName with
  | none => .error (.valueError "Database name not found in intention")
  | some n =>
    if n = "" then .error (.valueError "Database name not found in intention")
    else .ok n

/-- The source's `enrich_context`: read `database_name`, then run the five
retrieval sub-operations strictly in sequence, then combine; the enclosing
`except` re-raises any failure as `Error enriching context: ...`. -/
def enrich_context (now : String) (ctxId : Nat) (intention : Intention)
    (dbMeta tblMeta qEx schemaRel intentRel : Except PyErr Ctx) :
    Except PyErr EnrichedContext :=
  let body : Except PyErr EnrichedContext :=
    (databaseNameCheck intention.analysis).bind fun databaseName =>
    dbMeta.bind fun db =>
    tblMeta.bind fun tbl =>
    qEx.bind fun qe =>
    schemaRel.bind fun sr =>
    intentRel.bind fun ir =>
    Except.ok
      { databaseMetadata := db
        tableMetadata := tbl
        queryExamples := qe
        schemaRelationships := sr
        taskContext := ir
        timestamp := now
        contextId := ctxId
        intentionId := intention.id
        databaseName := databaseName }
  match body with
  | .ok c => .ok c
  | .error e => .error (.exception ("Error enriching context: " ++ e.msg))

/-- The filterMap form of the entity sections coincides with the
filter-then-map form. -/
theorem entity_sections_eq (l : Entities) :
    (l.filterMap fun p =>
      if p.2.isEmpty then none
      else some (p.1 ++ ": " ++ String.intercalate ", " p.2)) =
    ((l.filter fun p => !p.2.isEmpty).map fun p =>
      p.1 ++ ": " ++ String.intercalate ", " p.2) := by
  induction l with
  | nil => rfl
  | cons p rest ih =>
    simp only [List.filterMap_cons, List.filter_cons, List.isEmpty_iff] at ih ⊢
    by_cases hp : p.2 = []
    · simp [hp, ih]
    · simp [hp, ih]

/-- Analysis dict of spec Scenario 4. -/
def scenario4Analysis : Analysis :=
  { primaryIntent := some "sql_query"
    entities := [("tables", ["orders", "customers"])]
    isExecutable := true
    constraints := [] }

/-- Claim C5: the query-string builder emits, in order, the intent section,
one section per entity-type present, and the constraints section only when
constraints exist, omitting every empty section; Scenario 4 produces exactly
`Intent: sql_query tables: orders, customers`. -/
theorem build_search_query_follows_spec :
    (∀ a : Analysis, build_search_query a = spec_search_query a) ∧
    (∀ (a : Analysis) (k : String),
      build_search_query { a with entities := (k, []) :: a.entities } =
        build_search_query a) ∧
    build_search_query scenario4Analysis = "Intent: sql_query tables: orders, customers" := by
  refine ⟨?_, ?_, rfl⟩
  · intro a
    unfold build_search_query spec_search_query spec_query_sections
    rw [entity_sections_eq]
    cases a.primaryIntent <;>
      cases hc : a.constraints <;>
        simp [Option.toList, hc]
  · intro a k
    unfold build_search_query
    simp

/-- Intention with a database name and a primary intent that does not
require query examples, used to probe partial-failure tolerance. -/
def c6Intention : Intention :=
  { id := 90
    type := "chat"
    source := { type := "message", content := "explain the schema", sessionId := some "s-2" }
    analysis :=
      { primaryIntent := some "explanation"
        isExecutable := false
        databaseName := some "db1" }
    status := "pending"
    relationships := {}
    metadata := { intentionId := 90, timestamp := "t0" } }

/-- Claim C6 fails on the code: with exactly one retrieval sub-operation
failing (query examples) and a primary intent that does not require that
section, `enrich_context` aborts the whole operation instead of returning a
context with that section empty. -/
theorem enrich_context_no_partial_tolerance :
    enrich_context "t0" 0 c6Intention
        (.ok [("db", "info")]) (.ok []) (.error (.exception "vector search down"))
        (.ok []) (.ok []) =
      .error (.exception "Error enriching context: vector search down") := rfl

/-- Amended C6: `enrich_context` is all-or-nothing — whenever any retrieval
sub-operation consulted fails, the whole call fails with an
`Error enriching context:` error regardless of the primary intent, and a
context is returned only when every sub-operation succeeds, each section
filled from its sub-operation's results. -/
theorem enrich_context_all_or_nothing (now : String) (ctxId : Nat)
    (i : Intention) (r1 r2 r3 r4 r5 : Except PyErr Ctx) :
    ((∃ e, r1 = .error e) ∨ (∃ e, r2 = .error e) ∨ (∃ e, r3 = .error e) ∨
        (∃ e, r4 = .error e) ∨ (∃ e, r5 = .error e) →
      ∃ msg, enrich_context now ctxId i r1 r2 r3 r4 r5 =
        .error (.exception ("Error enriching context: " ++ msg))) ∧
    (∀ (n : String) (s1 s2 s3 s4 s5 : Ctx),
      i.analysis.databaseName = some n → n ≠ "" →
      enrich_context now ctxId i (.ok s1) (.ok s2) (.ok s3) (.ok s4) (.ok s5) =
        .ok { databaseMetadata := s1, tableMetadata := s2, queryExamples := s3,
              schemaRelationships := s4, taskContext := s5, timestamp := now,
              contextId := ctxId, intentionId := i.id, databaseName := n }) := by
  constructor
  · intro hfail
    unfold enrich_context
    match hdb : databaseNameCheck i.analysis with
    | .error e => exact ⟨e.msg, rfl⟩
    | .ok n =>
      rcases r1 with e1 | v1
      · exact ⟨e1.msg, rfl⟩
      rcases r2 with e2 | v2
      · exact ⟨e2.msg, rfl⟩
      rcases r3 with e3 | v3
      · exact ⟨e3.msg, rfl⟩
      rcases r4 with e4 | v4
      · exact ⟨e4.msg, rfl⟩
      rcases r5 with e5 | v5
      · exact ⟨e5.msg, rfl⟩
      · rcases hfail with ⟨e, h⟩ | ⟨e, h⟩ | ⟨e, h⟩ | ⟨e, h⟩ | ⟨e, h⟩ <;> cases h
  · intro n s1 s2 s3 s4 s5 hdb hn
    unfold enrich_context
    have hcheck : databaseNameCheck i.analysis = .ok n := by
      simp [databaseNameCheck, hdb, hn]
    rw [hcheck]
    rfl

/-- Witness for the amended C6 at concrete inputs: a failing sub-operation
aborts, and an all-successful run returns the combined context. -/
theorem enrich_context_all_or_nothing_witness :
    (∃ msg, enrich_context "t0" 0 c6Intention
        (.error (.exception "down")) (.ok []) (.ok []) (.ok []) (.ok []) =
      .error (.exception ("Error enriching context: " ++ msg))) ∧
    enrich_context "t0" 0 c6Intention
        (.ok [("db", "info")]) (.ok []) (.ok []) (.ok []) (.ok []) =
      .ok { databaseMetadata := [("db", "info")], tableMetadata := [],
            queryExamples := [], schemaRelationships := [], taskContext := [],
            timestamp := "t0", contextId := 0, intentionId := 90,
            databaseName := "db1" } :=
  ⟨(enrich_context_all_or_nothing "t0" 0 c6Intention
      (.error (.exception "down")) (.ok []) (.ok []) (.ok []) (.ok [])).1
      (Or.inl ⟨.exception "down", rfl⟩),
   (enrich_context_all_or_nothing "t0" 0 c6Intention
      (.ok [("db", "info")]) (.ok []) (.ok []) (.ok []) (.ok [])).2
      "db1" [("db", "info")] [] [] [] [] rfl (by decide)⟩

end ContextAgent

section DictLemmas

theorem dictInsert_lookup_self {κ α : Type} [DecidableEq κ] (k : κ) (v : α)
    (l : List (κ × α)) : (dictInsert k v l).lookup k = some v := by
  induction l with
  | nil => simp [dictInsert, List.lookup]
  | cons q rest ih =>
    cases q with
    | mk k1 v1 =>
      by_cases hk : k1 = k
      · subst hk
        simp [dictInsert, List.lookup]
      · have hbeq : (k == k1) = false := by
          simp only [beq_eq_false_iff_ne, ne_eq]
          exact fun he => hk he.symm
        simp [dictInsert, hk, List.lookup, hbeq, ih]

theorem dictInsert_lookup_ne {κ α : Type} [DecidableEq κ] (k j : κ) (v : α)
    (l : List (κ × α)) (h : j ≠ k) :
    (dictInsert k v l).lookup j = l.lookup j := by
  have hbeq : (j == k) = false := by
    simp only [beq_eq_false_iff_ne, ne_eq]
    exact h
  induction l with
  | nil => simp [dictInsert, List.lookup, hbeq]
  | cons q rest ih =>
    cases q with
    | mk k1 v1 =>
      by_cases hk : k1 = k
      · subst hk
        simp [dictInsert, List.lookup, hbeq]
      · cases hjk : (j == k1) with
        | true => simp [dictInsert, hk, List.lookup, hjk]
        | false => simp [dictInsert, hk, List.lookup, hjk, ih]

theorem mem_dictInsert {κ α : Type} [DecidableEq κ] (k : κ) (v : α)
    (l : List (κ × α)) (p : κ × α) (hp : p ∈ dictInsert k v l) :
    p = (k, v) ∨ p ∈ l := by
  induction l with
  | nil =>
    simp [dictInsert] at hp
    exact Or.inl hp
  | cons q rest ih =>
    cases q with
    | mk k1 v1 =>
      by_cases hk : k1 = k
      · rw [show dictInsert k v ((k1, v1) :: rest) = (k, v) :: rest from by
          simp [dictInsert, hk]] at hp
        rcases List.mem_cons.mp hp with h | h
        · exact Or.inl h
        · exact Or.inr (List.mem_cons_of_mem _ h)
      · rw [show dictInsert k v ((k1, v1) :: rest) = (k1, v1) :: dictInsert k v rest from by
          simp [dictInsert, hk]] at hp
        rcases List.mem_cons.mp hp with h | h
        · exact Or.inr (by simp [h])
        · rcases ih h with h1 | h1
          · exact Or.inl h1
          · exact Or.inr (List.mem_cons_of_mem _ h1)

theorem lookup_eq_none_of_keys_ne {κ α : Type} [DecidableEq κ]
    (l : List (κ × α)) (k : κ) (h : ∀ p ∈ l, p.1 ≠ k) : l.lookup k = none := by
  induction l with
  | nil => rfl
  | cons p rest ih =>
    cases p with
    | mk k1 v1 =>
      have h1 : k1 ≠ k := h (k1, v1) (List.mem_cons_self _ _)
      have hbeq : (k == k1) = false := by
        simp only [beq_eq_false_iff_ne, ne_eq]
        exact fun he => h1 he.symm
      simp only [List.lookup, hbeq]
      exact ih fun p hp => h p (List.mem_cons_of_mem _ hp)

end DictLemmas

section IntentionAgent
/-! Embedding of `bizops/services/agents/intention_agent.py`. Python's
`"explain" in message.lower()` substring test is embedded over the
character list; `str.lower()` is `String.toLower` (the inputs of interest
are ASCII). -/

/-- Python substring membership `needle in haystack`. -/
def pyInStr (needle haystack : String) : Bool :=
  decide (needle.data <:+: haystack.data)

/-- IntentionAgent state: the `self.intentions` index plus the uuid7
supply counter. -/
structure AgentState where
  intentions : List (Nat × Intention) := []
  counter : Nat := 0
deriving DecidableEq, Repr

/-- Result dict of `analyze_chat_intention` (its `metadata` flattened into
`intentionId`/`timestamp`/`totalIntentions`). Note it has no `analysis`
key. -/
structure ChatAnalysisResult where
  primaryIntention : Intention
  additionalIntentions : List Intention
  intentionId : Nat
  timestamp : String
  totalIntentions : Nat
deriving DecidableEq, Repr

/-- The primary-intention dict literal of `analyze_chat_intention`
(classification stub: `sql_query`, executable, no entities). -/
def chatPrimaryIntention (message sessionId now : String) (intentionId : Nat) :
    Intention :=
  { id := intentionId
    type := "chat"
    source := { type := "message", content := message, sessionId := some sessionId }
    analysis := { primaryIntent := some "sql_query", isExecutable := true }
    status := "pending"
    relationships := {}
    metadata :=
      { intentionId := intentionId
        timestamp := now
        sessionId := some sessionId } }

/-- The explanation-intention dict literal of
`_predict_additional_intentions`: derived, non-executable, parented at the
primary. -/
def chatExplanationIntention (message now : String) (primary : Intention)
    (ctr : Nat) : Intention :=
  { id := ctr
    type := "chat"
    source :=
      { type := "derived"
        content := message
        sessionId := primary.source.sessionId }
    analysis :=
      { primaryIntent := some "explanation"
        isExecutable := false }
    status := "pending"
    relationships := { parentIntention := some primary.id }
    metadata :=
      { intentionId := ctr
        timestamp := now
        sessionId := primary.source.sessionId } }

/-- The source's `_predict_additional_intentions`: when the lowercased
message contains `"explain"`, one derived explanation intention; otherwise
none. -/
def predict_additional_intentions (message : String) (primary : Intention)
    (now : String) (ctr : Nat) : List Intention × Nat :=
  if pyInStr "explain" message.toLower then
    ([chatExplanationIntention message now primary ctr], ctr + 1)
  else ([], ctr)

/-- The source's `analyze_chat_intention`: build the primary intention,
derive additional intentions, link both sides of every parent/child edge,
store the additional intentions and then the primary in the index, and
return the result dict. -/
def analyze_chat_intention (message sessionId : String) (_context : Option Ctx)
    (now : String) (st : AgentState) : ChatAnalysisResult × AgentState :=
  let intentionId := st.counter
  let ctr := st.counter + 1
  let primary := chatPrimaryIntention message sessionId now intentionId
  let pred := predict_additional_intentions message primary now ctr
  let additional := pred.1
  let ctr := pred.2
  let primary :=
    if additional.isEmpty then primary
    else
      { primary with
        relationships :=
          { primary.relationships with childIntentions := additional.map (·.id) } }
  let additional := additional.map fun a =>
    { a with
      relationships := { a.relationships with parentIntention := some primary.id } }
  let index := additional.foldl (fun idx a => dictInsert a.id a idx) st.intentions
  let index := dictInsert intentionId primary index
  ({ primaryIntention := primary
     additionalIntentions := additional
     intentionId := intentionId
     timestamp := now
     totalIntentions := additional.length + 1 },
   { intentions := index, counter := ctr })

/-- Every index entry is keyed by its intention's id, below the supply
counter. -/
def idsAligned (st : AgentState) : Prop :=
  ∀ p ∈ st.intentions, p.2.id = p.1 ∧ p.1 < st.counter

/-- Every intention with a parent is registered in that parent's child
list. -/
def parentOk (idx : List (Nat × Intention)) (p : Nat × Intention) : Prop :=
  ∀ par, p.2.relationships.parentIntention = some par →
    ∃ pi, idx.lookup par = some pi ∧ p.1 ∈ pi.relationships.childIntentions

/-- Every listed child points back at this intention as its parent. -/
def childOk (idx : List (Nat × Intention)) (p : Nat × Intention) : Prop :=
  ∀ c ∈ p.2.relationships.childIntentions,
    ∃ ci, idx.lookup c = some ci ∧ ci.relationships.parentIntention = some p.1

/-- Bidirectional parent/child consistency of the whole index, plus id
alignment (spec section 3 intention invariant). -/
def intentionGraphWF (st : AgentState) : Prop :=
  idsAligned st ∧
  (∀ p ∈ st.intentions, parentOk st.intentions p) ∧
  (∀ p ∈ st.intentions, childOk st.intentions p)

instance decidableLookupParent (idx : List (Nat × Intention)) (c k : Nat) :
    Decidable (∃ ci, idx.lookup c = some ci ∧
      ci.relationships.parentIntention = some k) :=
  match idx.lookup c with
  | none => isFalse (by
      rintro ⟨ci, hc, -⟩
      cases hc)
  | some ci =>
    decidable_of_iff (ci.relationships.parentIntention = some k) (by
      constructor
      · intro hp
        exact ⟨ci, rfl, hp⟩
      · rintro ⟨ci2, hc, hp⟩
        cases hc
        exact hp)

instance decidableLookupChild (idx : List (Nat × Intention)) (par j : Nat) :
    Decidable (∃ pi, idx.lookup par = some pi ∧
      j ∈ pi.relationships.childIntentions) :=
  match idx.lookup par with
  | none => isFalse (by
      rintro ⟨pi, hc, -⟩
      cases hc)
  | some pi =>
    decidable_of_iff (j ∈ pi.relationships.childIntentions) (by
      constructor
      · intro hp
        exact ⟨pi, rfl, hp⟩
      · rintro ⟨pi2, hc, hp⟩
        cases hc
        exact hp)

instance decidableParentOk (idx : List (Nat × Intention)) (p : Nat × Intention) :
    Decidable (parentOk idx p) :=
  match h : p.2.relationships.parentIntention with
  | none => isTrue (by
      intro par hp
      rw [h] at hp
      cases hp)
  | some par =>
    decidable_of_iff (∃ pi, idx.lookup par = some pi ∧
        p.1 ∈ pi.relationships.childIntentions) (by
      constructor
      · rintro ⟨pi, hl, hm⟩ par2 hp2
        rw [h] at hp2
        cases hp2
        exact ⟨pi, hl, hm⟩
      · intro hp
        exact hp par h)

instance decidableChildOk (idx : List (Nat × Intention)) (p : Nat × Intention) :
    Decidable (childOk idx p) :=
  List.decidableBAll _ _

instance decidableIdsAligned (st : AgentState) : Decidable (idsAligned st) :=
  List.decidableBAll _ _

instance decidableIntentionGraphWF (st : AgentState) :
    Decidable (intentionGraphWF st) := by
  unfold intentionGraphWF
  infer_instance

/-- The primary intention as returned when a derived intention exists: its
child list holds the explanation intention's id. -/
def linkedChatPrimary (message sessionId now : String) (n : Nat) : Intention :=
  let primary := chatPrimaryIntention message sessionId now n
  { primary with
    relationships := { primary.relationships with childIntentions := [n + 1] } }

/-- The explanation intention as returned: parent re-set to the primary's
id (the value it already carried). -/
def linkedChatChild (message sessionId now : String) (n : Nat) : Intention :=
  let e := chatExplanationIntention message now
    (chatPrimaryIntention message sessionId now n) (n + 1)
  { e with
    relationships := { e.relationships with parentIntention := some n } }

/-- A successful association-list lookup exhibits a member. -/
theorem lookup_some_mem {κ α : Type} [DecidableEq κ] {l : List (κ × α)}
    {k : κ} {v : α} (h : l.lookup k = some v) : (k, v) ∈ l := by
  induction l with
  | nil => cases h
  | cons q rest ih =>
    cases q with
    | mk k1 v1 =>
      cases hk : (k == k1) with
      | true =>
        have hkk : k = k1 := by simpa using hk
        simp only [List.lookup, hk] at h
        cases h
        subst hkk
        exact List.mem_cons_self _ _
      | false =>
        simp only [List.lookup, hk] at h
        exact List.mem_cons_of_mem _ (ih h)

/-- Run of `analyze_chat_intention` on a message without "explain": one
primary intention, stored alone. -/
theorem analyze_chat_state_noexplain (message sessionId : String)
    (ctx : Option Ctx) (now : String) (st : AgentState)
    (hb : pyInStr "explain" message.toLower = false) :
    analyze_chat_intention message sessionId ctx now st =
      ({ primaryIntention := chatPrimaryIntention message sessionId now st.counter
         additionalIntentions := []
         intentionId := st.counter
         timestamp := now
         totalIntentions := 1 },
       { intentions :=
           dictInsert st.counter (chatPrimaryIntention message sessionId now st.counter)
             st.intentions
         counter := st.counter + 1 }) := by
  unfold analyze_chat_intention predict_additional_intentions
  rw [hb]
  rfl

/-- Run of `analyze_chat_intention` on a message containing "explain": the
linked primary and explanation intentions, both stored. -/
theorem analyze_chat_state_explain (message sessionId : String)
    (ctx : Option Ctx) (now : String) (st : AgentState)
    (hb : pyInStr "explain" message.toLower = true) :
    analyze_chat_intention message sessionId ctx now st =
      ({ primaryIntention := linkedChatPrimary message sessionId now st.counter
         additionalIntentions := [linkedChatChild message sessionId now st.counter]
         intentionId := st.counter
         timestamp := now
         totalIntentions := 2 },
       { intentions :=
           dictInsert st.counter (linkedChatPrimary message sessionId now st.counter)
             (dictInsert (st.counter + 1)
               (linkedChatChild message sessionId now st.counter) st.intentions)
         counter := st.counter + 2 }) := by
  unfold analyze_chat_intention predict_additional_intentions
  rw [hb]
  rfl

/-- Claim C7: chat-intention analysis preserves bidirectional parent/child
consistency of the agent's intention index — after the call, every
intention with a parent appears in that parent's child list and vice versa;
no state with a one-sided edge is ever stored. -/
theorem analyze_chat_preserves_graphWF (message sessionId : String)
    (ctx : Option Ctx) (now : String) (st : AgentState)
    (hwf : intentionGraphWF st) :
    intentionGraphWF (analyze_chat_intention message sessionId ctx now st).2 := by
  obtain ⟨hids, hparentAll, hchildAll⟩ := hwf
  cases hb : pyInStr "explain" message.toLower with
  | false =>
    rw [analyze_chat_state_noexplain message sessionId ctx now st hb]
    dsimp only
    refine ⟨?_, ?_, ?_⟩
    · intro p hp
      rcases mem_dictInsert _ _ _ _ hp with h | h
      · subst h
        exact ⟨rfl, Nat.lt_succ_self _⟩
      · obtain ⟨h1, h2⟩ := hids p h
        exact ⟨h1, Nat.lt_succ_of_lt h2⟩
    · intro p hp par hpp
      rcases mem_dictInsert _ _ _ _ hp with h | h
      · subst h
        simp [chatPrimaryIntention] at hpp
      · obtain ⟨pi, hl, hm⟩ := hparentAll p h par hpp
        have hlt : par < st.counter := (hids _ (lookup_some_mem hl)).2
        refine ⟨pi, ?_, hm⟩
        rw [dictInsert_lookup_ne _ _ _ _ (by omega)]
        exact hl
    · intro p hp c hc
      rcases mem_dictInsert _ _ _ _ hp with h | h
      · subst h
        simp [chatPrimaryIntention] at hc
      · obtain ⟨ci, hl, hpc⟩ := hchildAll p h c hc
        have hlt : c < st.counter := (hids _ (lookup_some_mem hl)).2
        refine ⟨ci, ?_, hpc⟩
        rw [dictInsert_lookup_ne _ _ _ _ (by omega)]
        exact hl
  | true =>
    rw [analyze_chat_state_explain message sessionId ctx now st hb]
    dsimp only
    refine ⟨?_, ?_, ?_⟩
    · intro p hp
      rcases mem_dictInsert _ _ _ _ hp with h | h
      · subst h
        exact ⟨rfl, Nat.lt_succ_of_lt (Nat.lt_succ_self _)⟩
      · rcases mem_dictInsert _ _ _ _ h with h1 | h1
        · subst h1
          exact ⟨rfl, Nat.lt_succ_self _⟩
        · obtain ⟨h2, h3⟩ := hids p h1
          exact ⟨h2, Nat.lt_succ_of_lt (Nat.lt_succ_of_lt h3)⟩
    · intro p hp par hpp
      rcases mem_dictInsert _ _ _ _ hp with h | h
      · subst h
        simp [linkedChatPrimary, chatPrimaryIntention] at hpp
      · rcases mem_dictInsert _ _ _ _ h with h1 | h1
        · subst h1
          have hpn : par = st.counter := by
            simpa [linkedChatChild, chatExplanationIntention,
              chatPrimaryIntention] using hpp.symm
          subst hpn
          refine ⟨linkedChatPrimary message sessionId now st.counter,
            dictInsert_lookup_self _ _ _, ?_⟩
          simp [linkedChatPrimary, chatPrimaryIntention]
        · obtain ⟨pi, hl, hm⟩ := hparentAll p h1 par hpp
          have hlt : par < st.counter := (hids _ (lookup_some_mem hl)).2
          refine ⟨pi, ?_, hm⟩
          rw [dictInsert_lookup_ne _ _ _ _ (by omega),
            dictInsert_lookup_ne _ _ _ _ (by omega)]
          exact hl
    · intro p hp c hc
      rcases mem_dictInsert _ _ _ _ hp with h | h
      · subst h
        have hcn : c = st.counter + 1 := by
          simpa [linkedChatPrimary, chatPrimaryIntention] using hc
        subst hcn
        refine ⟨linkedChatChild message sessionId now st.counter, ?_, ?_⟩
        · rw [dictInsert_lookup_ne _ _ _ _ (by omega)]
          exact dictInsert_lookup_self _ _ _
        · rfl
      · rcases mem_dictInsert _ _ _ _ h with h1 | h1
        · subst h1
          simp [linkedChatChild, chatExplanationIntention,
            chatPrimaryIntention] at hc
        · obtain ⟨ci, hl, hpc⟩ := hchildAll p h1 c hc
          have hlt : c < st.counter := (hids _ (lookup_some_mem hl)).2
          refine ⟨ci, ?_, hpc⟩
          rw [dictInsert_lookup_ne _ _ _ _ (by omega),
            dictInsert_lookup_ne _ _ _ _ (by omega)]
          exact hl

/-- Witness for C7: a fresh agent analyzing "please explain this query"
yields a consistent index. -/
theorem analyze_chat_preserves_graphWF_witness :
    intentionGraphWF
      (analyze_chat_intention "please explain this query" "s-9" none "t0"
        { intentions := [], counter := 0 }).2 :=
  analyze_chat_preserves_graphWF "please explain this query" "s-9" none "t0"
    { intentions := [], counter := 0 } (by decide)

/-- Claim C10: `analyze_chat_intention` creates a derived secondary
intention exactly when the lowercased message contains "explain"; the
derived intention has primary intent `explanation`, is not executable, is
parented at the primary intention, and is registered in the index alongside
the primary; otherwise only the primary intention is created and stored. -/
theorem analyze_chat_derived_explanation (message sessionId : String)
    (ctx : Option Ctx) (now : String) (st : AgentState) :
    ((analyze_chat_intention message sessionId ctx now st).1.additionalIntentions ≠ []
      ↔ pyInStr "explain" message.toLower = true) ∧
    (∀ a ∈ (analyze_chat_intention message sessionId ctx now st).1.additionalIntentions,
      a.analysis.primaryIntent = some "explanation" ∧
      a.analysis.isExecutable = false ∧
      a.relationships.parentIntention =
        some (analyze_chat_intention message sessionId ctx now st).1.primaryIntention.id ∧
      (analyze_chat_intention message sessionId ctx now st).2.intentions.lookup a.id =
        some a) ∧
    ((analyze_chat_intention message sessionId ctx now st).2.intentions.lookup
        (analyze_chat_intention message sessionId ctx now st).1.primaryIntention.id =
      some (analyze_chat_intention message sessionId ctx now st).1.primaryIntention) ∧
    (pyInStr "explain" message.toLower = false →
      (analyze_chat_intention message sessionId ctx now st).1.additionalIntentions = [] ∧
      (analyze_chat_intention message sessionId ctx now st).2.intentions =
        dictInsert (analyze_chat_intention message sessionId ctx now st).1.primaryIntention.id
          (analyze_chat_intention message sessionId ctx now st).1.primaryIntention
          st.intentions) ∧
    (pyInStr "explain" message.toLower = true →
      ∃ e, (analyze_chat_intention message sessionId ctx now st).1.additionalIntentions = [e]) := by
  cases hb : pyInStr "explain" message.toLower with
  | false =>
    rw [analyze_chat_state_noexplain message sessionId ctx now st hb]
    dsimp only
    refine ⟨by simp, by simp, ?_, fun _ => ⟨rfl, ?_⟩, fun h => by cases h⟩
    · exact dictInsert_lookup_self _ _ _
    · rfl
  | true =>
    rw [analyze_chat_state_explain message sessionId ctx now st hb]
    dsimp only
    refine ⟨by simp, ?_, ?_, ?_, ?_⟩
    rotate_left 2
    · intro h
      exact nomatch h
    · exact fun _ => ⟨_, rfl⟩
    · intro a ha
      have ha1 : a = linkedChatChild message sessionId now st.counter := by
        simpa using ha
      subst ha1
      refine ⟨rfl, rfl, rfl, ?_⟩
      show (dictInsert st.counter (linkedChatPrimary message sessionId now st.counter)
        (dictInsert (st.counter + 1) (linkedChatChild message sessionId now st.counter)
          st.intentions)).lookup (st.counter + 1) =
        some (linkedChatChild message sessionId now st.counter)
      rw [dictInsert_lookup_ne _ _ _ _ (by omega)]
      exact dictInsert_lookup_self _ _ _
    · exact dictInsert_lookup_self _ _ _

/-- Witness for C10: the "explain" branch at a concrete message and, for
the negative direction, a message without "explain". -/
theorem analyze_chat_derived_explanation_witness :
    ((analyze_chat_intention "explain the result" "s-3" none "t0"
        { intentions := [], counter := 0 }).1.additionalIntentions ≠ [] ↔
      pyInStr "explain" ("explain the result".toLower) = true) ∧
    ((analyze_chat_intention "find customers" "s-3" none "t0"
        { intentions := [], counter := 0 }).1.additionalIntentions ≠ [] ↔
      pyInStr "explain" ("find customers".toLower) = true) :=
  ⟨(analyze_chat_derived_explanation "explain the result" "s-3" none "t0"
      { intentions := [], counter := 0 }).1,
   (analyze_chat_derived_explanation "find customers" "s-3" none "t0"
      { intentions := [], counter := 0 }).1⟩

/-- The source's `analyze_completion_intention`: always builds exactly one
new intention with no parent; the classification stub fixes
`primary_intent = IntentionType.SQL_QUERY.value` (the string `sql_query`),
`is_executable = True`, and empty entities, and registers it in the
index. -/
def analyze_completion_intention (prompt : String) (_context : Option Ctx)
    (now : String) (st : AgentState) : Intention × AgentState :=
  let intentionId := st.counter
  let intention : Intention :=
    { id := intentionId
      type := "completion"
      source := { type := "prompt", content := prompt }
      analysis := { primaryIntent := some "sql_query", isExecutable := true }
      status := "pending"
      relationships := {}
      metadata := { intentionId := intentionId, timestamp := now } }
  (intention,
   { intentions := dictInsert intentionId intention st.intentions
     counter := st.counter + 1 })

/-- Claim C1 fails on the code: the completion planner's SQL branch
dispatches on the literal intent string `sql_generation`, a value the
analyzer never produces (its stub always emits `sql_query`, the only
SQL-generation-like member of the intent enum). On the Scenario-2 intention
— exactly what `analyze_completion_intention("find top 5 customers", ...)`
returns, executable with primary intent `sql_query` — `create_plan` yields
a plan with an empty task list: no schema_lookup, no sql_generation and no
trailing validation task. The claimed shape is produced only under the
unreachable dispatch value `sql_generation`. -/
theorem create_plan_sql_query_dispatch_mismatch :
    (analyze_completion_intention "find top 5 customers" none "t0"
        { intentions := [], counter := 0 }).1.analysis.primaryIntent =
      some "sql_query" ∧
    (analyze_completion_intention "find top 5 customers" none "t0"
        { intentions := [], counter := 0 }).1.analysis.isExecutable = true ∧
    (analyze_completion_intention "find top 5 customers" none "t0"
        { intentions := [], counter := 0 }).1.type = "completion" ∧
    (runPlan (create_plan "t1"
        (analyze_completion_intention "find top 5 customers" none "t0"
          { intentions := [], counter := 0 }).1 0 ⟨[], []⟩)).tasks = [] ∧
    (plan_completion_tasks "sql_query" [] [("tables", ["customers"])] [] 1).1
      = [] ∧
    (plan_completion_tasks "sql_generation" [] [("tables", ["customers"])] [] 1).1.map
        taskSig =
      [(1, "SCHEMA_LOOKUP", 1, []),
       (2, "SQL_GENERATION", 2, [1]),
       (3, "VALIDATION", 3, [2])] := by
  refine ⟨rfl, rfl, rfl, rfl, rfl, rfl⟩

end IntentionAgent

section SessionStore
/-! Embedding of `bizops/services/session_service.py` together with the
session functions of `bizops/services/postgres.py`. The database is an
in-memory list of session rows; the SQL statements become pure functions on
it. Keyword-argument binding is modelled explicitly at the call from
`Session.__init__` to `PostgresService.create_session`, because the caller
passes a `context` keyword the callee does not accept. -/

/-- A `sessions` row together with the context that
`PostgresService.get_session` assembles from `session_variables`. -/
structure SessionRecord where
  sessionId : String
  context : Ctx := []
  createdAt : String
  lastAccessed : String
  isActive : Bool := true
deriving DecidableEq, Repr

/-- The sessions table. -/
abbrev SessionStore := List SessionRecord

/-- `PostgresService.get_session`: the first row matching the id, with its
context assembled. -/
def pg_get_session (sessionId : String) (store : SessionStore) :
    Option SessionRecord :=
  store.find? fun r => r.sessionId == sessionId

/-- `PostgresService.end_session`: `UPDATE sessions SET is_active = FALSE
WHERE session_id = ...` — affects zero or more rows and returns True
whenever the statement executes, regardless of whether any row matched. -/
def pg_end_session (sessionId : String) (store : SessionStore) :
    Bool × SessionStore :=
  (true,
   store.map fun r =>
     if r.sessionId == sessionId then { r with isActive := false } else r)

/-- Parameter names of `def create_session(self, session_id, created_at,
last_accessed)` in postgres.py. -/
def pg_create_session_params : List String :=
  ["session_id", "created_at", "last_accessed"]

/-- Python keyword binding: every provided keyword must name a parameter of
the callee, otherwise the call raises TypeError before the body runs. -/
def bindKwargs (fname : String) (params provided : List String) :
    Except PyErr Unit :=
  match provided.find? fun k => !params.contains k with
  | some k =>
    .error (.typeError (fname ++ "() got an unexpected keyword argument " ++ k))
  | none => .ok ()

/-- `Session.__init__`: set the fields, then call
`self._db.create_session(session_id=..., context=..., created_at=...,
last_accessed=...)` — a call carrying a `context` keyword that
`PostgresService.create_session` does not accept, so binding raises
TypeError and the row is never inserted. -/
def session_init (sessionId : String) (context : Option Ctx) (now : String)
    (store : SessionStore) : Except PyErr (SessionRecord × SessionStore) :=
  (bindKwargs "create_session" pg_create_session_params
    ["session_id", "context", "created_at", "last_accessed"]).bind fun _ =>
  let r : SessionRecord :=
    { sessionId := sessionId
      context := context.getD []
      createdAt := now
      lastAccessed := now
      isActive := true }
  .ok (r, store ++ [r])

/-- `Session.update_last_accessed` calls `self._db.update_session(...)`,
but `PostgresService` defines no `update_session` method (postgres.py
defines only `update_session_context` and `update_session_state`), so the
attribute access raises AttributeError. -/
def session_update_last_accessed (_s : SessionRecord) (_now : String)
    (_store : SessionStore) : Except PyErr (SessionRecord × SessionStore) :=
  .error (.attributeError "PostgresService object has no attribute update_session")

/-- `Session.from_db`: falsy data propagates as `None`; otherwise construct
`Session(...)` — running the failing `create_session` call — then overwrite
the timestamps and `is_active` from the row. -/
def session_from_db (data : Option SessionRecord) (now : String)
    (store : SessionStore) :
    Except PyErr (Option SessionRecord × SessionStore) :=
  match data with
  | none => .ok (none, store)
  | some d =>
    (session_init d.sessionId (some d.context) now store).bind fun sres =>
    .ok (some { sres.1 with
                  createdAt := d.createdAt
                  lastAccessed := d.lastAccessed
                  isActive := d.isActive },
         sres.2)

/-- `SessionService.get_session`: an absent row returns `None` (the
NotFound miss); otherwise rebuild the session via `Session.from_db`, and
for an active session bump `last_accessed` before returning it. -/
def sv_get_session (sessionId now : String) (store : SessionStore) :
    Except PyErr (Option SessionRecord × SessionStore) :=
  match pg_get_session sessionId store with
  | none => .ok (none, store)
  | some data =>
    (session_from_db (some data) now store).bind fun sres =>
    match sres.1 with
    | some s =>
      if s.isActive then
        (session_update_last_accessed s now sres.2).bind fun bres =>
        .ok (some bres.1, bres.2)
      else .ok (none, sres.2)
    | none => .ok (none, sres.2)

/-- `SessionService.end_session`: a straight delegation to
`PostgresService.end_session`. -/
def sv_end_session (sessionId : String) (store : SessionStore) :
    Bool × SessionStore :=
  pg_end_session sessionId store

/-- A live session row. -/
def liveRecord : SessionRecord :=
  { sessionId := "s1", createdAt := "t0", lastAccessed := "t0" }

/-- The same row after `end_session`. -/
def endedRecord : SessionRecord :=
  { sessionId := "s1", createdAt := "t0", lastAccessed := "t0", isActive := false }

/-- Claim C9 fails on the code: `end_session` does set `is_active` to false
and is idempotent, but its boolean return value is True even when no
session with the id exists — the UPDATE executes and matches nothing — so
it does not report whether a live session was found (its own docstring says
"False if it doesn't exist"). -/
theorem end_session_returns_true_for_absent :
    sv_end_session "missing" [] = (true, []) ∧
    sv_end_session "s1" [liveRecord] = (true, [endedRecord]) ∧
    sv_end_session "s1" [endedRecord] = (true, [endedRecord]) ∧
    sv_end_session "missing" [liveRecord] = (true, [liveRecord]) := by
  refine ⟨rfl, rfl, rfl, rfl⟩

/-- Claim C4 fails on the code: a missing id is an opaque `None` miss as
claimed, but whenever a row for the id exists — ended or live — `get_session`
raises TypeError instead of returning the session or `None`, because
`Session.from_db` constructs a `Session`, whose `__init__` passes a `context`
keyword that `PostgresService.create_session` does not accept. The
`last_accessed` bump is unreachable (and would itself raise AttributeError,
since `PostgresService` has no `update_session`). -/
theorem get_session_raises_typeerror :
    sv_get_session "s2" "t1" [endedRecord] = .ok (none, [endedRecord]) ∧
    sv_get_session "s1" "t1" [endedRecord] =
      .error (.typeError
        "create_session() got an unexpected keyword argument context") ∧
    sv_get_session "s1" "t1" [liveRecord] =
      .error (.typeError
        "create_session() got an unexpected keyword argument context") := by
  refine ⟨rfl, rfl, rfl⟩

end SessionStore

section Orchestrator
/-! Embedding of `bizops/controller/assistant.py`. The controller drives
injected collaborators (session service, intention agent, context agent,
planner); each collaborator call is abstracted as an `Except PyErr`
outcome supplied to the entry point, and the control flow around those
outcomes — the early return on a session miss, the `is_executable` guard,
the truthiness test on the response context, the history check, and the
enclosing `try/except` — is translated from the source. -/

/-- Return value of the (absent) `refine_context` stage as consumed by the
controller: `refined_context["data"]`. -/
structure RefinedContext where
  data : Ctx
deriving DecidableEq, Repr

/-- Plan summary embedded in a response: id plus (type, status) of each
task. -/
structure ResponsePlanSummary where
  id : Nat
  tasks : List (String × String)
deriving DecidableEq, Repr

/-- The response envelope assembled by `chat_completions` and `chat`
(nested dicts flattened). -/
structure Response where
  text : String
  tokensUsed : Nat
  model : String
  intentionAnalysis : Analysis
  contextData : Ctx
  planSummary : Option ResponsePlanSummary
  context : Ctx
  timestamp : String
  requestId : Nat
  intentionId : Nat
  sessionId : String
deriving DecidableEq, Repr

/-- Collaborator outcomes consulted by `chat_completions`. `addHistory`
models `_add_to_chat_history`: `session_service.add_to_chat_history`
returns either `(True, None)` (here `none`) or `(False, msg)` (here
`some msg`) — no other shape occurs in its code. -/
structure CompletionStages where
  createSession : Except PyErr SessionRecord
  getSession : Except PyErr (Option SessionRecord)
  analyze : Except PyErr Intention
  refine : Except PyErr RefinedContext
  createPlan : Except PyErr Plan
  updateContext : Except PyErr Unit
  addHistory : Except PyErr (Option String)
deriving Repr

/-- Collaborator outcomes consulted by `chat` (the analyzer returns the
chat result dict). -/
structure ChatStages where
  createSession : Except PyErr SessionRecord
  getSession : Except PyErr (Option SessionRecord)
  analyzeChat : Except PyErr ChatAnalysisResult
  refine : Except PyErr RefinedContext
  createPlan : Except PyErr Plan
  updateContext : Except PyErr Unit
  addHistory : Except PyErr (Option String)
deriving Repr

/-- Session resolution shared by both entry points: `if not session_id`
(absent or empty string) create a session, else look it up; a `None`
lookup result is the session-miss signal. -/
def resolve_session (sessionId : Option String)
    (createS : Except PyErr SessionRecord)
    (getS : Except PyErr (Option SessionRecord)) :
    Except PyErr (Option (SessionRecord × String × Ctx)) :=
  if sessionId.getD "" = "" then
    createS.bind fun s => .ok (some (s, s.sessionId, s.context))
  else
    getS.bind fun s? =>
      match s? with
      | none => .ok none
      | some s => .ok (some (s, sessionId.getD "", s.context))

/-- The tail of `chat_completions` after session resolution: analyze,
refine, plan when executable, assemble the response, persist context when
truthy, append history. -/
def completion_pipeline (query now : String) (requestId : Nat)
    (analyzeS : Except PyErr Intention) (refineS : Except PyErr RefinedContext)
    (createPlanS : Except PyErr Plan) (updateContextS : Except PyErr Unit)
    (addHistoryS : Except PyErr (Option String))
    (sid : String) (ctx : Ctx) :
    Except PyErr (Option Response × Option String) :=
  analyzeS.bind fun intention =>
  refineS.bind fun refined =>
  (if intention.analysis.isExecutable then createPlanS.map some
   else .ok none).bind fun plan? =>
  let response : Response :=
    { text := "Generated response for: " ++ query
      tokensUsed := 50
      model := "default-completion-model"
      intentionAnalysis := intention.analysis
      contextData := refined.data
      planSummary := plan?.map fun p =>
        { id := p.planId, tasks := p.tasks.map fun t => (t.type, t.status) }
      context := ctx
      timestamp := now
      requestId := requestId
      intentionId := intention.metadata.intentionId
      sessionId := sid }
  (if response.context.isEmpty then .ok () else updateContextS).bind fun _ =>
  addHistoryS.bind fun histErr =>
  match histErr with
  | some err => .ok (none, some err)
  | none => .ok (some response, none)

/-- The source's `chat_completions`: resolve the session, run the pipeline,
and catch any exception into the `(None, message)` pair. -/
def chat_completions (query : String) (_context : Option Ctx)
    (sessionId : Option String) (now : String) (requestId : Nat)
    (o : CompletionStages) : Option Response × Option String :=
  let body : Except PyErr (Option Response × Option String) :=
    (resolve_session sessionId o.createSession o.getSession).bind fun sess =>
    match sess with
    | none => .ok (none, some "Session not found or expired")
    | some (_, sid, ctx) =>
      completion_pipeline query now requestId o.analyze o.refine o.createPlan
        o.updateContext o.addHistory sid ctx
  match body with
  | .ok r => r
  | .error e => (none, some ("Error in chat completions: " ++ e.msg))

/-- The subscript `intention["analysis"]` inside `chat`: the dict returned
by `analyze_chat_intention` has only the keys `primary_intention`,
`additional_intentions` and `metadata`, so the access raises KeyError. -/
def chatResultAnalysis (_cr : ChatAnalysisResult) : Except PyErr Analysis :=
  .error (.keyError "analysis")

/-- The tail of `chat` after session resolution: analyze the chat message,
refine, then read `intention["analysis"]` (KeyError), with the rest of the
source's flow translated after that read. -/
def chat_pipeline (message now : String) (requestId : Nat)
    (analyzeChatS : Except PyErr ChatAnalysisResult)
    (refineS : Except PyErr RefinedContext)
    (createPlanS : Except PyErr Plan) (updateContextS : Except PyErr Unit)
    (addHistoryS : Except PyErr (Option String))
    (sid : String) (ctx : Ctx) :
    Except PyErr (Option Response × Option String) :=
  analyzeChatS.bind fun cr =>
  refineS.bind fun refined =>
  (chatResultAnalysis cr).bind fun analysis =>
  (if analysis.isExecutable then createPlanS.map some
   else .ok none).bind fun plan? =>
  let response : Response :=
    { text := "Generated response for: " ++ message
      tokensUsed := 50
      model := "default-chat-model"
      intentionAnalysis := analysis
      contextData := refined.data
      planSummary := plan?.map fun p =>
        { id := p.planId, tasks := p.tasks.map fun t => (t.type, t.status) }
      context := ctx
      timestamp := now
      requestId := requestId
      intentionId := cr.intentionId
      sessionId := sid }
  (if response.context.isEmpty then .ok () else updateContextS).bind fun _ =>
  addHistoryS.bind fun histErr =>
  match histErr with
  | some err => .ok (none, some err)
  | none => .ok (some response, none)

/-- The source's `chat`: same shape as `chat_completions` with the chat
analyzer, catching any exception into the `(None, message)` pair. -/
def chat (message : String) (sessionId : Option String) (_context : Option Ctx)
    (now : String) (requestId : Nat) (o : ChatStages) :
    Option Response × Option String :=
  let body : Except PyErr (Option Response × Option String) :=
    (resolve_session sessionId o.createSession o.getSession).bind fun sess =>
    match sess with
    | none => .ok (none, some "Session not found or expired")
    | some (_, sid, ctx) =>
      chat_pipeline message now requestId o.analyzeChat o.refine o.createPlan
        o.updateContext o.addHistory sid ctx
  match body with
  | .ok r => r
  | .error e => (none, some ("Error in chat: " ++ e.msg))

/-- An outcome pair carrying a response and no error, or no response and an
error. -/
def goodShape (r : Option Response × Option String) : Prop :=
  (r.1.isSome ∧ r.2 = none) ∨ (r.1 = none ∧ r.2.isSome)

/-- A nil response together with a non-nil error. -/
def errOut (r : Option Response × Option String) : Prop :=
  r.1 = none ∧ r.2.isSome

theorem history_tail_shape (response : Response)
    (addHistoryS : Except PyErr (Option String))
    (r : Option Response × Option String)
    (h : (addHistoryS.bind fun histErr =>
      match histErr with
      | some err => Except.ok (none, some err)
      | none => Except.ok (some response, none)) = .ok r) : goodShape r := by
  rcases addHistoryS with e | herr
  · cases h
  rcases herr with _ | err
  · simp only [Except.bind] at h
    cases h
    simp [goodShape]
  · simp only [Except.bind] at h
    cases h
    simp [goodShape]

theorem persist_tail_shape (response : Response) (cond : Bool)
    (updateContextS : Except PyErr Unit)
    (addHistoryS : Except PyErr (Option String))
    (r : Option Response × Option String)
    (h : ((if cond then Except.ok () else updateContextS).bind fun _ =>
      addHistoryS.bind fun histErr =>
      match histErr with
      | some err => Except.ok (none, some err)
      | none => Except.ok (some response, none)) = .ok r) : goodShape r := by
  rcases cond with _ | _
  · simp only [Bool.false_eq_true, if_false] at h
    rcases updateContextS with e | u
    · cases h
    simp only [Except.bind] at h
    exact history_tail_shape response addHistoryS r h
  · simp only [if_true] at h
    simp only [Except.bind] at h
    exact history_tail_shape response addHistoryS r h

theorem completion_pipeline_ok_shape (query now : String) (requestId : Nat)
    (analyzeS : Except PyErr Intention) (refineS : Except PyErr RefinedContext)
    (createPlanS : Except PyErr Plan) (updateContextS : Except PyErr Unit)
    (addHistoryS : Except PyErr (Option String)) (sid : String) (ctx : Ctx)
    (r : Option Response × Option String)
    (h : completion_pipeline query now requestId analyzeS refineS createPlanS
      updateContextS addHistoryS sid ctx = .ok r) : goodShape r := by
  unfold completion_pipeline at h
  rcases analyzeS with e | intention
  · cases h
  rcases refineS with e | refined
  · cases h
  simp only [Except.bind] at h
  rcases hex : intention.analysis.isExecutable with _ | _ <;> rw [hex] at h
  · simp only [Bool.false_eq_true, if_false] at h
    exact persist_tail_shape _ _ updateContextS addHistoryS r h
  · simp only [if_true] at h
    rcases createPlanS with e | plan
    · cases h
    simp only [Except.map, Except.bind] at h
    exact persist_tail_shape _ _ updateContextS addHistoryS r h

theorem chat_pipeline_errOut (message now : String) (requestId : Nat)
    (analyzeChatS : Except PyErr ChatAnalysisResult)
    (refineS : Except PyErr RefinedContext)
    (createPlanS : Except PyErr Plan) (updateContextS : Except PyErr Unit)
    (addHistoryS : Except PyErr (Option String)) (sid : String) (ctx : Ctx)
    (r : Option Response × Option String)
    (h : chat_pipeline message now requestId analyzeChatS refineS createPlanS
      updateContextS addHistoryS sid ctx = .ok r) : False := by
  unfold chat_pipeline at h
  rcases analyzeChatS with e | cr
  · cases h
  rcases refineS with e | refined
  · cases h
  simp only [Except.bind, chatResultAnalysis] at h
  cases h

/-- A pipeline outcome that raises or carries a nil response with a non-nil
error. -/
def failsOver (x : Except PyErr (Option Response × Option String)) : Prop :=
  (∃ e, x = .error e) ∨ (∃ r, x = .ok r ∧ errOut r)

theorem completion_pipeline_fails_of_stage (query now : String)
    (requestId : Nat) (analyzeS : Except PyErr Intention)
    (refineS : Except PyErr RefinedContext) (createPlanS : Except PyErr Plan)
    (updateContextS : Except PyErr Unit)
    (addHistoryS : Except PyErr (Option String)) (sid : String) (ctx : Ctx)
    (hfail : (∃ e, analyzeS = .error e) ∨ (∃ e, refineS = .error e) ∨
      (∃ e i, analyzeS = .ok i ∧ i.analysis.isExecutable = true ∧
        createPlanS = .error e) ∨
      (ctx.isEmpty = false ∧ ∃ e, updateContextS = .error e) ∨
      (∃ e, addHistoryS = .error e) ∨ (∃ err, addHistoryS = .ok (some err))) :
    failsOver (completion_pipeline query now requestId analyzeS refineS
      createPlanS updateContextS addHistoryS sid ctx) := by
  rcases ha : analyzeS with e1 | i
  · exact Or.inl ⟨e1, rfl⟩
  rcases hr : refineS with e2 | rf
  · exact Or.inl ⟨e2, rfl⟩
  unfold completion_pipeline
  simp only [Except.bind]
  rcases hex : i.analysis.isExecutable with _ | _ <;>
    simp only [hex, if_true, Bool.false_eq_true, if_false]
  · -- not executable: plan skipped
    rcases hctx : ctx.isEmpty with _ | _ <;>
      simp only [hctx, if_true, Bool.false_eq_true, if_false, Except.bind]
    · -- context non-empty: updateContext consulted
      rcases hu : updateContextS with e4 | u
      · exact Or.inl ⟨e4, rfl⟩
      simp only [Except.bind]
      rcases hh : addHistoryS with e5 | herr
      · exact Or.inl ⟨e5, rfl⟩
      rcases herr with _ | err
      · -- every consulted stage succeeded: the hypothesis is contradictory
        subst ha hr hu hh
        simp [hex, hctx] at hfail
      · exact Or.inr ⟨(none, some err), rfl, rfl, rfl⟩
    · rcases hh : addHistoryS with e5 | herr
      · exact Or.inl ⟨e5, rfl⟩
      rcases herr with _ | err
      · subst ha hr hh
        simp [hex, hctx] at hfail
      · exact Or.inr ⟨(none, some err), rfl, rfl, rfl⟩
  · -- executable: plan consulted
    rcases hp : createPlanS with e3 | plan
    · exact Or.inl ⟨e3, rfl⟩
    simp only [Except.map, Except.bind]
    rcases hctx : ctx.isEmpty with _ | _ <;>
      simp only [hctx, if_true, Bool.false_eq_true, if_false, Except.bind]
    · rcases hu : updateContextS with e4 | u
      · exact Or.inl ⟨e4, rfl⟩
      simp only [Except.bind]
      rcases hh : addHistoryS with e5 | herr
      · exact Or.inl ⟨e5, rfl⟩
      rcases herr with _ | err
      · subst ha hr hp hu hh
        simp [hex, hctx] at hfail
      · exact Or.inr ⟨(none, some err), rfl, rfl, rfl⟩
    · rcases hh : addHistoryS with e5 | herr
      · exact Or.inl ⟨e5, rfl⟩
      rcases herr with _ | err
      · subst ha hr hp hh
        simp [hex, hctx] at hfail
      · exact Or.inr ⟨(none, some err), rfl, rfl, rfl⟩

theorem chat_completions_goodShape (query : String) (ctx0 : Option Ctx)
    (sessionId : Option String) (now : String) (requestId : Nat)
    (o : CompletionStages) :
    goodShape (chat_completions query ctx0 sessionId now requestId o) := by
  unfold chat_completions
  rcases hres : resolve_session sessionId o.createSession o.getSession with e | sess
  · simp [goodShape, Except.bind]
  · rcases sess with _ | ⟨s, sidr, cxt⟩
    · simp [goodShape, Except.bind]
    · simp only [Except.bind]
      rcases hp : completion_pipeline query now requestId o.analyze o.refine
          o.createPlan o.updateContext o.addHistory sidr cxt with e | r
      · simp [goodShape]
      · have hg := completion_pipeline_ok_shape query now requestId o.analyze
          o.refine o.createPlan o.updateContext o.addHistory sidr cxt r hp
        simpa using hg

theorem chat_completions_errOut_master (query : String) (ctx0 : Option Ctx)
    (sessionId : Option String) (now : String) (requestId : Nat)
    (o : CompletionStages)
    (hall : ∀ (sidr : String) (cxt : Ctx),
      failsOver (completion_pipeline query now requestId o.analyze o.refine
        o.createPlan o.updateContext o.addHistory sidr cxt)) :
    errOut (chat_completions query ctx0 sessionId now requestId o) := by
  unfold chat_completions
  rcases hres : resolve_session sessionId o.createSession o.getSession with e | sess
  · simp [errOut, Except.bind]
  · rcases sess with _ | ⟨s, sidr, cxt⟩
    · simp [errOut, Except.bind]
    · simp only [Except.bind]
      rcases hall sidr cxt with ⟨e, he⟩ | ⟨r, hr, hro⟩
      · rw [he]
        simp [errOut]
      · rw [hr]
        simpa [errOut] using hro

theorem chat_completions_session_miss (query : String) (ctx0 : Option Ctx)
    (sessionId : Option String) (now : String) (requestId : Nat)
    (o : CompletionStages) (hs : sessionId.getD "" ≠ "")
    (hg : o.getSession = .ok none) :
    chat_completions query ctx0 sessionId now requestId o =
      (none, some "Session not found or expired") := by
  unfold chat_completions resolve_session
  rw [if_neg hs, hg]
  rfl

theorem chat_completions_errOut_session_stage (query : String)
    (ctx0 : Option Ctx) (sessionId : Option String) (now : String)
    (requestId : Nat) (o : CompletionStages)
    (hfail : (sessionId.getD "" = "" ∧ ∃ e, o.createSession = .error e) ∨
      (sessionId.getD "" ≠ "" ∧ ∃ e, o.getSession = .error e)) :
    errOut (chat_completions query ctx0 sessionId now requestId o) := by
  unfold chat_completions resolve_session
  rcases hfail with ⟨hs, e, he⟩ | ⟨hs, e, he⟩
  · rw [if_pos hs, he]
    simp [errOut, Except.bind]
  · rw [if_neg hs, he]
    simp [errOut, Except.bind]

theorem chat_always_errOut (message : String) (sessionId : Option String)
    (ctx0 : Option Ctx) (now : String) (requestId : Nat) (o : ChatStages) :
    errOut (chat message sessionId ctx0 now requestId o) := by
  unfold chat
  rcases hres : resolve_session sessionId o.createSession o.getSession with e | sess
  · simp [errOut, Except.bind]
  · rcases sess with _ | ⟨s, sidr, cxt⟩
    · simp [errOut, Except.bind]
    · simp only [Except.bind]
      rcases hp : chat_pipeline message now requestId o.analyzeChat o.refine
          o.createPlan o.updateContext o.addHistory sidr cxt with e | r
      · simp [errOut]
      · exact absurd hp fun hp2 => chat_pipeline_errOut message now requestId
          o.analyzeChat o.refine o.createPlan o.updateContext o.addHistory
          sidr cxt r hp2

theorem chat_completions_errOut_at (query : String) (ctx0 : Option Ctx)
    (sessionId : Option String) (now : String) (requestId : Nat)
    (o : CompletionStages) (s : SessionRecord) (sidr : String) (cxt : Ctx)
    (hres : resolve_session sessionId o.createSession o.getSession =
      .ok (some (s, sidr, cxt)))
    (hp : failsOver (completion_pipeline query now requestId o.analyze o.refine
      o.createPlan o.updateContext o.addHistory sidr cxt)) :
    errOut (chat_completions query ctx0 sessionId now requestId o) := by
  unfold chat_completions
  rw [hres]
  simp only [Except.bind]
  rcases hp with ⟨e, he⟩ | ⟨r, hr, hro⟩
  · rw [he]
    simp [errOut]
  · rw [hr]
    simpa [errOut] using hro

/-- Claim C3: both orchestrator entry points return an explicit
(response, error) pair with exactly one side present and never raise past
the boundary — any raised exception is caught into the error side — and
every pipeline-stage failure (session resolution, intention analysis,
context refinement, planning, persistence of context or history)
short-circuits into a nil response paired with a non-nil error. -/
theorem orchestrator_error_contract (query message : String)
    (ctx0 : Option Ctx) (sessionId : Option String) (now : String)
    (requestId : Nat) (o : CompletionStages) (oc : ChatStages) :
    goodShape (chat_completions query ctx0 sessionId now requestId o) ∧
    goodShape (chat message sessionId ctx0 now requestId oc) ∧
    ((sessionId.getD "" = "" ∧ ∃ e, o.createSession = .error e) ∨
        (sessionId.getD "" ≠ "" ∧ ∃ e, o.getSession = .error e) →
      errOut (chat_completions query ctx0 sessionId now requestId o)) ∧
    (sessionId.getD "" ≠ "" → o.getSession = .ok none →
      chat_completions query ctx0 sessionId now requestId o =
        (none, some "Session not found or expired")) ∧
    (∀ e, o.analyze = .error e →
      errOut (chat_completions query ctx0 sessionId now requestId o)) ∧
    (∀ e, o.refine = .error e →
      errOut (chat_completions query ctx0 sessionId now requestId o)) ∧
    (∀ e i, o.analyze = .ok i → i.analysis.isExecutable = true →
      o.createPlan = .error e →
      errOut (chat_completions query ctx0 sessionId now requestId o)) ∧
    (∀ e s sidr cxt,
      resolve_session sessionId o.createSession o.getSession =
        .ok (some (s, sidr, cxt)) →
      cxt.isEmpty = false → o.updateContext = .error e →
      errOut (chat_completions query ctx0 sessionId now requestId o)) ∧
    (∀ e, o.addHistory = .error e →
      errOut (chat_completions query ctx0 sessionId now requestId o)) ∧
    (∀ err, o.addHistory = .ok (some err) →
      errOut (chat_completions query ctx0 sessionId now requestId o)) ∧
    (∀ e, oc.analyzeChat = .error e →
      errOut (chat message sessionId ctx0 now requestId oc)) ∧
    (∀ e, oc.refine = .error e →
      errOut (chat message sessionId ctx0 now requestId oc)) := by
  refine ⟨chat_completions_goodShape query ctx0 sessionId now requestId o,
    Or.inr (chat_always_errOut message sessionId ctx0 now requestId oc),
    chat_completions_errOut_session_stage query ctx0 sessionId now requestId o,
    chat_completions_session_miss query ctx0 sessionId now requestId o,
    ?_, ?_, ?_, ?_, ?_, ?_,
    fun _ _ => chat_always_errOut message sessionId ctx0 now requestId oc,
    fun _ _ => chat_always_errOut message sessionId ctx0 now requestId oc⟩
  · intro e he
    exact chat_completions_errOut_master query ctx0 sessionId now requestId o
      fun sidr cxt => completion_pipeline_fails_of_stage query now requestId
        _ _ _ _ _ sidr cxt (Or.inl ⟨e, he⟩)
  · intro e he
    exact chat_completions_errOut_master query ctx0 sessionId now requestId o
      fun sidr cxt => completion_pipeline_fails_of_stage query now requestId
        _ _ _ _ _ sidr cxt (Or.inr (Or.inl ⟨e, he⟩))
  · intro e i ha hex hp
    exact chat_completions_errOut_master query ctx0 sessionId now requestId o
      fun sidr cxt => completion_pipeline_fails_of_stage query now requestId
        _ _ _ _ _ sidr cxt (Or.inr (Or.inr (Or.inl ⟨e, i, ha, hex, hp⟩)))
  · intro e s sidr cxt hres hcxt hu
    exact chat_completions_errOut_at query ctx0 sessionId now requestId o s
      sidr cxt hres (completion_pipeline_fails_of_stage query now requestId
        _ _ _ _ _ sidr cxt
        (Or.inr (Or.inr (Or.inr (Or.inl ⟨hcxt, e, hu⟩)))))
  · intro e he
    exact chat_completions_errOut_master query ctx0 sessionId now requestId o
      fun sidr cxt => completion_pipeline_fails_of_stage query now requestId
        _ _ _ _ _ sidr cxt
        (Or.inr (Or.inr (Or.inr (Or.inr (Or.inl ⟨e, he⟩)))))
  · intro err he
    exact chat_completions_errOut_master query ctx0 sessionId now requestId o
      fun sidr cxt => completion_pipeline_fails_of_stage query now requestId
        _ _ _ _ _ sidr cxt
        (Or.inr (Or.inr (Or.inr (Or.inr (Or.inr ⟨err, he⟩)))))

/-- Stage outcomes mirroring a real run against the source: the intention
agent raises TypeError (the controller passes `query`/`session_id` keywords
`analyze_completion_intention` does not accept), and the context agent has
no `refine_context` attribute. -/
def failingStages : CompletionStages :=
  { createSession := .ok liveRecord
    getSession := .ok (some liveRecord)
    analyze := .error (.typeError
      "analyze_completion_intention() got an unexpected keyword argument query")
    refine := .error (.attributeError
      "ContextAgent object has no attribute refine_context")
    createPlan := .ok
      { planId := 0, intentionId := 0, type := "completion", tasks := [],
        status := "pending", timestamp := "t0", totalTasks := 0 }
    updateContext := .ok ()
    addHistory := .ok none }

/-- Chat stage outcomes with a failing analyzer. -/
def failingChatStages : ChatStages :=
  { createSession := .ok liveRecord
    getSession := .ok (some liveRecord)
    analyzeChat := .error (.exception "Error analyzing chat intention: boom")
    refine := .error (.attributeError
      "ContextAgent object has no attribute refine_context")
    createPlan := .ok
      { planId := 0, intentionId := 0, type := "chat", tasks := [],
        status := "pending", timestamp := "t0", totalTasks := 0 }
    updateContext := .ok ()
    addHistory := .ok none }

/-- Witness for C3: a failing analysis stage yields the nil-response,
non-nil-error outcome in both entry points. -/
theorem orchestrator_error_contract_witness :
    errOut (chat_completions "find top 5 customers" none (some "s1") "t0" 7
      failingStages) ∧
    errOut (chat "hello" (some "s1") none "t0" 8 failingChatStages) :=
  ⟨(orchestrator_error_contract "find top 5 customers" "hello" none
      (some "s1") "t0" 7 failingStages failingChatStages).2.2.2.2.1
      (.typeError
        "analyze_completion_intention() got an unexpected keyword argument query")
      rfl,
   (orchestrator_error_contract "find top 5 customers" "hello" none
      (some "s1") "t0" 8 failingStages failingChatStages).2.2.2.2.2.2.2.2.2.2.1
      (.exception "Error analyzing chat intention: boom") rfl⟩

end Orchestrator


end Bizops
